import Mathlib

/-!
Shallow embedding of the identity and monetization core of the
chartizy-backend2 service (FastAPI + Supabase + Stripe/PayPal/PayTR),
together with theorems settling the frozen claims about it.

Python strings are modelled as Lean `String`; Python `None`-able values as
`Option`; Python dict rows of the `graphzy_users` table as the `Account`
structure; the Supabase-backed user table as a function from user id to
`Option Account` inside `DbState`.  External library primitives
(HMAC-SHA256, base64, json.dumps) are taken as function parameters, since
their implementations live outside this repository; every use in the model
passes the exact strings the source passes.
-/

namespace Chartizy

/-- A row of the `graphzy_users` table / the user dicts built by the
handlers (`src/app/middleware/jwt_auth.py`, `src/app/services/supabase_service.py`).
`id` and `email` are `Option` because the in-memory fallback dicts built in
`get_current_user` can carry Python `None` in these slots.  Profile columns
(`first_name`, `last_name`, `created_at`) are not touched by any claim and
are omitted. -/
structure Account where
  id : Option String
  email : Option String
  subscription_tier : String
  chart_count : Nat
deriving Repr, DecidableEq

/-- State of the data store as seen through `SupabaseService`: the user
table keyed by id, plus a flag modelling whether the upsert in
`create_user` raises a (transient) storage exception. -/
structure DbState where
  users : String → Option Account
  upsertFails : Bool

/-- Python truthiness of an optional string: `None` and `""` are falsy. -/
def truthy : Option String → Bool
  | none => false
  | some s => s ≠ ""

/-- Python `str(x)` applied to a possibly-`None` value (f-string
interpolation): `None` prints as `"None"`. -/
def pyStr : Option String → String
  | some s => s
  | none => "None"

/-- Python `d.get(key, default)` on a dict that is known to contain `key`
(the identity-claim dicts built in `verify_token` always carry both keys):
the stored value is returned even when it is `None`; the default is unused. -/
def pyDictGet (stored : Option String) (_dflt : String) : Option String :=
  stored

/-- `SupabaseService.get_user_by_id` (supabase_service.py:24-32): a select
by id; any query error (including an id of `None`) yields `None`. -/
def get_user_by_id (db : DbState) (user_id : Option String) : Option Account :=
  user_id.bind db.users

/-- The default user record dict `{id, email, "free", 0}` that both
`create_user`'s exception branch and `get_current_user`'s fallback build. -/
def basicUser (user_id email : String) : Account :=
  { id := some user_id, email := some email,
    subscription_tier := "free", chart_count := 0 }

/-- `SupabaseService.create_user` (supabase_service.py:42-65): upsert by id
with default tier `"free"` and `chart_count 0`; when the storage layer
raises, the basic (non-persisted) user dict is returned instead. -/
def create_user (db : DbState) (user_id email : String) : DbState × Account :=
  if db.upsertFails then
    (db, basicUser user_id email)
  else
    let a := basicUser user_id email
    ({ db with users := fun uid => if uid = user_id then some a else db.users uid }, a)

/-- `SupabaseService.update_user_subscription` (supabase_service.py:104-110):
update the `subscription_tier` column of the row with the given id; returns
`bool(response.data)`, i.e. whether a row matched. -/
def update_user_subscription (db : DbState) (user_id tier : String) : DbState × Bool :=
  ({ db with users := fun uid =>
      if uid = user_id then
        (db.users uid).map (fun a => { a with subscription_tier := tier })
      else db.users uid },
   (db.users user_id).isSome)

/-! ## Credential Verifier (src/app/middleware/jwt_auth.py) -/

/-- Claims of a locally decoded JWT payload: `payload.get("sub")` and
`payload.get("email")`, each possibly absent. -/
structure TokenPayload where
  sub : Option String
  email : Option String
deriving Repr, DecidableEq

/-- Outcome of the two external verification attempts made inside
`JWTAuthMiddleware.verify_token`: Supabase `auth.get_user` succeeds with a
user (id is always a string, email may be null), or the local `jwt.decode`
succeeds with some payload, or both fail. -/
inductive TokenOutcome where
  | supabaseUser (id : String) (email : Option String)
  | localPayload (p : TokenPayload)
  | invalid
deriving Repr, DecidableEq

/-- The normalized identity-claim dict `{"user_id": ..., "email": ...}`
returned by `verify_token`; both keys are always present, either value may
be Python `None`. -/
structure UserData where
  user_id : Option String
  email : Option String
deriving Repr, DecidableEq

/-- `JWTAuthMiddleware.verify_token` (jwt_auth.py:15-41): Supabase first,
then local decode; any decode error yields `None`. -/
def verify_token : TokenOutcome → Option UserData
  | .supabaseUser id email => some ⟨some id, email⟩
  | .localPayload p => some ⟨p.sub, p.email⟩
  | .invalid => none

/-- Result of the `get_current_user` dependency: the resolved account, or a
401 rejection. -/
inductive AuthResult where
  | ok (user : Account)
  | unauthorized
deriving Repr, DecidableEq

/-- `get_current_user` (jwt_auth.py:44-86): verify the token (401 on
failure), look the account up, auto-create it when absent and both identity
fields are truthy, degrade to the basic in-memory dict when creation fails,
and finally fall back to a default dict built with
`user_data.get("user_id", "")` / `user_data.get("email", "")` (keys always
present, so the `""` defaults are never taken).  `create_user` never lets a
storage exception escape (its own `except` returns the basic dict), so the
`except` in jwt_auth.py:68-75, which would build the identical dict, is
subsumed by `create_user`'s fallback. -/
def get_current_user (db : DbState) (tok : TokenOutcome) : DbState × AuthResult :=
  match verify_token tok with
  | none => (db, .unauthorized)
  | some ud =>
    let user0 := get_user_by_id db ud.user_id
    let step :=
      if user0.isNone ∧ truthy ud.user_id ∧ truthy ud.email then
        let (db', a) := create_user db (ud.user_id.getD "") (ud.email.getD "")
        (db', some a)
      else (db, user0)
    match step.2 with
    | some u => (step.1, .ok u)
    | none =>
      (step.1, .ok { id := pyDictGet ud.user_id "", email := pyDictGet ud.email "",
                     subscription_tier := "free", chart_count := 0 })

/-! ## Quota Policy (src/app/routers/charts.py) -/

def FREE_CHART_LIMIT : Nat := 5

/-- Decision of the quota gate at the head of `generate_chart`. -/
inductive QuotaDecision where
  | allow
  | deny (code : Nat) (detail : String)
deriving Repr, DecidableEq

/-- The quota gate of `generate_chart` (charts.py:34-43): free users with
`chart_count >= FREE_CHART_LIMIT` are denied with a 403 naming the limit
and the upgrade path; everyone else passes on to generation. -/
def chartQuotaCheck (subscription_tier : String) (chart_count : Nat) : QuotaDecision :=
  if subscription_tier = "free" ∧ FREE_CHART_LIMIT ≤ chart_count then
    .deny 403 ("Free users can only generate " ++ toString FREE_CHART_LIMIT ++
      " charts. Upgrade to Pro for unlimited charts.")
  else
    .allow

/-! ## IAP verification (src/app/routers/iap.py) -/

/-- Body of `POST /subscription/verify-iap`. -/
structure VerifyIAPRequest where
  receipt : String
  platform : String
deriving Repr, DecidableEq

/-- Response of `verify_iap`: the success JSON, or an HTTP error. -/
inductive IapResult where
  | iapSuccess (user_id : Option String) (subscription_tier : String)
  | httpError (code : Nat) (detail : String)
deriving Repr, DecidableEq

def IapResult.isSuccess : IapResult → Bool
  | .iapSuccess _ _ => true
  | .httpError _ _ => false

/-- `verify_iap` (iap.py:16-53): no call to Apple or Google is made; the
only check is `not request.receipt or len(request.receipt) < 10`, whose
400 is re-wrapped by the enclosing `except Exception` into a 500; any
longer receipt immediately upgrades the caller to `"pro"`.  A `None`
caller id would make the update raise and be re-wrapped as a 500. -/
def verify_iap (db : DbState) (current_user : Account) (req : VerifyIAPRequest) :
    DbState × IapResult :=
  if req.receipt = "" ∨ req.receipt.length < 10 then
    (db, .httpError 500 "Failed to verify IAP: Invalid receipt data")
  else
    match current_user.id with
    | some uid =>
      let (db', _ok) := update_user_subscription db uid "pro"
      (db', .iapSuccess current_user.id "pro")
    | none => (db, .httpError 500 "Failed to verify IAP: invalid user id")

/-! ## Event traces

To state the "no mutation before signature verification" invariant, the
three inbound confirmation handlers (Stripe webhook, PayPal webhook, PayTR
callback) are instrumented to emit, in execution order, an event for every
successful signature comparison against a shared secret and an event for
every account mutation they perform.  The Stripe and PayPal webhook bodies
contain no signature comparison at all (subscription.py:114-115,
payment.py:254-255 are comments), so those models never emit
`signatureVerified`. -/

inductive Event where
  | signatureVerified
  | accountMutated (user_id tier : String)
deriving Repr, DecidableEq

/-- Scan an event list left to right, tracking whether a signature
verification has already happened; a mutation is only legal afterwards. -/
def mutationsAfterVerify : List Event → Bool → Bool
  | [], _ => true
  | .signatureVerified :: rest, _ => mutationsAfterVerify rest true
  | .accountMutated _ _ :: rest, seen => seen && mutationsAfterVerify rest seen

/-- Every `accountMutated` event in the trace is preceded by a
`signatureVerified` event. -/
def mutationsVerifiedFirst (evs : List Event) : Prop :=
  mutationsAfterVerify evs false = true

instance (evs : List Event) : Decidable (mutationsVerifiedFirst evs) := by
  unfold mutationsVerifiedFirst; infer_instance

/-! ## Stripe webhook (src/app/routers/subscription.py) -/

/-- Stripe module availability and the configured webhook secret
(`STRIPE_WEBHOOK_SECRET`, `""` when unset). -/
structure StripeEnv where
  stripe_available : Bool
  webhook_secret : String
deriving Repr, DecidableEq

/-- The fields of the webhook JSON body the handler reads:
`request.get("type")` and
`request.get("data", {}).get("object", {}).get("metadata", {}).get("user_id")`. -/
structure StripeWebhookRequest where
  event_type : Option String
  metadata_user_id : Option String
deriving Repr, DecidableEq

/-- Response of a webhook/callback handler: an acknowledgment JSON or an
HTTP error. -/
inductive HookResult where
  | ack (status message : String)
  | err (code : Nat) (detail : String)
deriving Repr, DecidableEq

/-- `stripe_webhook` (subscription.py:94-128): after availability and
secret-configuration checks, the event type alone is trusted — no signature
is verified (the source carries only the comment "In production, verify the
webhook signature here") — and on `checkout.session.completed` with a
truthy metadata `user_id` the account is upgraded to `"pro"`. -/
def stripe_webhook (env : StripeEnv) (db : DbState) (req : StripeWebhookRequest) :
    DbState × List Event × HookResult :=
  if ¬ env.stripe_available then
    (db, [], .err 500 "Stripe is not installed")
  else if env.webhook_secret = "" then
    (db, [], .err 500 "Stripe webhook secret not configured")
  else if req.event_type = some "checkout.session.completed" then
    if truthy req.metadata_user_id then
      let uid := req.metadata_user_id.getD ""
      let (db', _ok) := update_user_subscription db uid "pro"
      (db', [.accountMutated uid "pro"], .ack "ok" "")
    else
      (db, [], .ack "ok" "")
  else
    (db, [], .ack "ok" "")

/-! ## PayPal (src/app/routers/payment.py) -/

/-- PayPal credentials and mode from the environment. -/
structure PaypalEnv where
  client_id : String
  secret : String
  mode : String
deriving Repr, DecidableEq

/-- Response of the PayPal OAuth token endpoint as the handler reads it:
HTTP status plus the (possibly missing) `access_token` field. -/
structure PaypalAuthResp where
  status_code : Nat
  access_token : Option String
deriving Repr, DecidableEq

/-- One entry of the order response's `links` array. -/
structure PaypalLink where
  rel : Option String
  href : Option String
deriving Repr, DecidableEq

/-- Response of the PayPal create-order endpoint as the handler reads it. -/
structure PaypalOrderResp where
  status_code : Nat
  id : Option String
  links : List PaypalLink
deriving Repr, DecidableEq

/-- The loop at payment.py:128-132: the `href` of the first link whose
`rel` is `"approve"` (possibly `None`). -/
def findApprovalUrl : List PaypalLink → Option String
  | [] => none
  | l :: rest => if l.rel = some "approve" then l.href else findApprovalUrl rest

/-- Response of `create_paypal_session`. -/
inductive PaypalCreateResult where
  | ok (order_id approval_url : String)
  | err (code : Nat) (detail : String)
deriving Repr, DecidableEq

/-- `create_paypal_session` (payment.py:46-154): config check, OAuth,
order creation, approval-link extraction.  The provider responses are
inputs; the account store is threaded untouched — the handler performs no
database operation. -/
def create_paypal_session (env : PaypalEnv) (db : DbState)
    (auth : PaypalAuthResp) (order : PaypalOrderResp) :
    DbState × PaypalCreateResult :=
  if env.client_id = "" ∨ env.secret = "" then
    (db, .err 500 "PayPal is not configured. Please set PAYPAL_CLIENT_ID and PAYPAL_SECRET environment variables.")
  else if auth.status_code ≠ 200 then
    (db, .err 500 "Failed to get PayPal access token")
  else
    match auth.access_token with
    | none => (db, .err 500 "Failed to create PayPal session: access_token")
    | some _tok =>
      if order.status_code ≠ 201 then
        (db, .err 500 "Failed to create PayPal order")
      else
        let approval_url := findApprovalUrl order.links
        if truthy approval_url then
          match order.id with
          | some oid => (db, .ok oid (approval_url.getD ""))
          | none => (db, .err 500 "Failed to create PayPal session: id")
        else
          (db, .err 500 "Failed to get PayPal approval URL")

/-- Response of the PayPal capture endpoint as the handler reads it. -/
structure PaypalCaptureResp where
  status_code : Nat
  status : Option String
deriving Repr, DecidableEq

/-- Response of `capture_paypal_payment`. -/
inductive PaypalCaptureResult where
  | ok (order_id : String)
  | err (code : Nat) (detail : String)
deriving Repr, DecidableEq

/-- `capture_paypal_payment` (payment.py:157-245): re-authenticate, call
the capture endpoint, and only on a `"COMPLETED"` capture status update
`str(current_user["id"])` to tier `"pro"`; every other outcome returns an
error and leaves the store untouched. -/
def capture_paypal_payment (env : PaypalEnv) (db : DbState)
    (current_user : Account) (order_id : String)
    (auth : PaypalAuthResp) (cap : PaypalCaptureResp) :
    DbState × PaypalCaptureResult :=
  if env.client_id = "" ∨ env.secret = "" then
    (db, .err 500 "PayPal is not configured")
  else if auth.status_code ≠ 200 then
    (db, .err 500 "Failed to get PayPal access token")
  else
    match auth.access_token with
    | none => (db, .err 500 "Failed to capture payment: access_token")
    | some _tok =>
      if cap.status_code ≠ 201 then
        (db, .err 400 "Failed to capture payment")
      else if cap.status = some "COMPLETED" then
        let (db', _ok) := update_user_subscription db (pyStr current_user.id) "pro"
        (db', .ok order_id)
      else
        (db, .err 400 "Payment not completed")

/-- The fields of the PayPal webhook JSON body the handler reads. -/
structure PaypalWebhookRequest where
  event_type : Option String
  order_id : Option String
deriving Repr, DecidableEq

/-- `paypal_webhook` (payment.py:248-267): no signature verification (the
source carries only the comment "In production, verify the webhook
signature here"); on `PAYMENT.CAPTURE.COMPLETED` it extracts an order id
but — lacking any order→subject mapping — performs no update; every request
is acknowledged with `{"status": "ok"}` and the store is untouched. -/
def paypal_webhook (db : DbState) (req : PaypalWebhookRequest) :
    DbState × List Event × HookResult :=
  if req.event_type.getD "" = "PAYMENT.CAPTURE.COMPLETED" then
    let _order_id := req.order_id
    (db, [], .ack "ok" "")
  else
    (db, [], .ack "ok" "")

/-! ## PayTR (src/app/routers/payment.py) -/

/-- PayTR merchant secrets and mode from settings. -/
structure PaytrConfig where
  merchant_id : String
  merchant_key : String
  merchant_salt : String
  paytr_mode : String
deriving Repr, DecidableEq

/-- Body of `POST /payment/create-paytr-session`. -/
structure CreatePayTRRequest where
  success_url : String
  fail_url : String
  amount : ℚ
  user_id : String
deriving Repr, DecidableEq

/-- Python `int(x)` on a number: truncation toward zero. -/
def pyInt (q : ℚ) : Int :=
  if 0 ≤ q then q.floor else q.ceil

/-- Python `s.split("-")` on the character list of a string: maximal runs
between occurrences of `'-'`, with empty runs kept at the ends and between
adjacent separators. -/
def splitDash : List Char → List (List Char)
  | [] => [[]]
  | c :: rest =>
    let gs := splitDash rest
    if c = '-' then [] :: gs
    else
      match gs with
      | [] => [[c]]
      | g :: gs' => (c :: g) :: gs'

/-- Python `merchant_oid.split("-")` lifted back to strings. -/
def pySplitDash (s : String) : List String :=
  (splitDash s.data).map String.mk

/-- payment.py:296: the merchant order id
`f"graphzy-\x7bcurrent_user['id']\x7d-\x7buuid.uuid4().hex[:8]\x7d"`. -/
def paytrOrderId (user_id suffix : String) : String :=
  "graphzy-" ++ user_id ++ "-" ++ suffix

/-- payment.py:423: `merchant_oid.split("-")[1] if "-" in merchant_oid
else None` — the subject id recovered at callback time. -/
def extractUserId (merchant_oid : String) : Option String :=
  if '-' ∈ merchant_oid.data then some ((pySplitDash merchant_oid).getD 1 "")
  else none

/-- The `payment_data` form submitted to the PayTR get-token endpoint
(payment.py:314-329). -/
structure PaytrPaymentData where
  merchant_id : String
  user_ip : String
  merchant_oid : String
  email : Option String
  payment_amount : Int
  paytr_token : String
  user_basket : String
  no_installment : Nat
  max_installment : Nat
  currency : String
  test_mode : String
  lang : String
  success_url : String
  fail_url : String
deriving Repr, DecidableEq

/-- The pure part of `create_paytr_session` (payment.py:294-329), up to the
outbound HTTP call: build the order id, the kuruş amount, the base64
basket, the HMAC token over
`merchant_id + merchant_salt + order_id + email + amount + basket + "00" + test_flag`
(the f-string at payment.py:307), and the full form.  `hmacSha256B64 k m`
stands for `base64.b64encode(hmac.new(k, m, sha256).digest())`, `b64` for
`base64.b64encode` of a UTF-8 string, and `basketJson amount` for
`json.dumps([["Graphzy Pro Subscription", amount, 1]])`; these are Python
standard-library primitives, not code of this repository. -/
def buildPaytrPaymentData (hmacSha256B64 : String → String → String)
    (b64 : String → String) (basketJson : ℚ → String)
    (cfg : PaytrConfig) (current_user : Account) (req : CreatePayTRRequest)
    (uuidSuffix : String) : PaytrPaymentData :=
  let order_id := paytrOrderId (pyStr current_user.id) uuidSuffix
  let amount_kurus := pyInt (req.amount * 100)
  let user_basket := b64 (basketJson req.amount)
  let hash_str := cfg.merchant_id ++ cfg.merchant_salt ++ order_id ++
    pyStr current_user.email ++ toString amount_kurus ++ user_basket ++ "00" ++
    (if cfg.paytr_mode = "test" then "1" else "0")
  let hash_value := hmacSha256B64 cfg.merchant_key hash_str
  { merchant_id := cfg.merchant_id
    user_ip := "127.0.0.1"
    merchant_oid := order_id
    email := current_user.email
    payment_amount := amount_kurus
    paytr_token := hash_value
    user_basket := user_basket
    no_installment := 0
    max_installment := 0
    currency := "TL"
    test_mode := if cfg.paytr_mode = "test" then "1" else "0"
    lang := "tr"
    success_url := req.success_url
    fail_url := req.fail_url }

/-- The PayTR get-token response as the handler reads it: HTTP status plus
the `status`, `token` and `reason` JSON fields. -/
structure PaytrApiResp where
  status_code : Nat
  status : Option String
  token : Option String
  reason : Option String
deriving Repr, DecidableEq

/-- Response of `create_paytr_session`. -/
inductive PaytrSessionResult where
  | ok (order_id iframe_url redirect_url : String)
  | err (code : Nat) (detail : String)
deriving Repr, DecidableEq

/-- `create_paytr_session` (payment.py:271-374): config check, build the
form, post it, and translate the provider response; no database operation
is performed. -/
def create_paytr_session (hmacSha256B64 : String → String → String)
    (b64 : String → String) (basketJson : ℚ → String)
    (cfg : PaytrConfig) (db : DbState) (current_user : Account)
    (req : CreatePayTRRequest) (uuidSuffix : String) (resp : PaytrApiResp) :
    DbState × PaytrSessionResult :=
  if cfg.merchant_id = "" ∨ cfg.merchant_key = "" ∨ cfg.merchant_salt = "" then
    (db, .err 500 "PayTR is not configured. Please set PAYTR_MERCHANT_ID, PAYTR_MERCHANT_KEY, and PAYTR_MERCHANT_SALT environment variables in your .env file.")
  else
    let pd := buildPaytrPaymentData hmacSha256B64 b64 basketJson cfg current_user req uuidSuffix
    if resp.status_code ≠ 200 then
      (db, .err 500 "PayTR API HTTP error")
    else if resp.status = some "success" then
      let token := pyStr resp.token
      let redirect_url :=
        if cfg.paytr_mode = "live" then "https://www.paytr.com/odeme/guvenli/" ++ token
        else "https://www.paytr.com/odeme/test/guvenli/" ++ token
      (db, .ok pd.merchant_oid token redirect_url)
    else
      (db, .err 400 "PayTR error")

/-- The form fields of the PayTR callback (`request.form()`), each possibly
missing. -/
structure PaytrCallbackForm where
  merchant_oid : Option String
  status : Option String
  total_amount : Option String
  hash : Option String
deriving Repr, DecidableEq

/-- `paytr_callback` (payment.py:377-442): require the secrets and the four
form fields; recompute
`base64(HMAC-SHA256(merchant_key, merchant_oid + merchant_salt + status + total_amount))`
and reject with 400 "Invalid hash" unless it equals the supplied hash;
then, on `status == "success"`, recover the subject id from the order id
and upgrade it to `"pro"` (the inner 400 for an unrecoverable id is
re-wrapped by the enclosing `except` as a 500); on any other status return
the benign failed acknowledgment. -/
def paytr_callback (hmacSha256B64 : String → String → String)
    (cfg : PaytrConfig) (db : DbState) (form : PaytrCallbackForm) :
    DbState × List Event × HookResult :=
  if cfg.merchant_key = "" ∨ cfg.merchant_salt = "" then
    (db, [], .err 500 "PayTR is not configured")
  else if ¬ truthy form.merchant_oid ∨ ¬ truthy form.status ∨
      ¬ truthy form.total_amount ∨ ¬ truthy form.hash then
    (db, [], .err 400 "Missing required PayTR callback parameters")
  else
    let merchant_oid := form.merchant_oid.getD ""
    let status := form.status.getD ""
    let total_amount := form.total_amount.getD ""
    let hash_value := form.hash.getD ""
    let hash_str := merchant_oid ++ cfg.merchant_salt ++ status ++ total_amount
    let calculated_hash := hmacSha256B64 cfg.merchant_key hash_str
    if calculated_hash ≠ hash_value then
      (db, [], .err 400 "Invalid hash - possible security issue")
    else if status = "success" then
      let user_id := extractUserId merchant_oid
      if truthy user_id then
        let uid := user_id.getD ""
        let (db', _ok) := update_user_subscription db uid "pro"
        (db', [.signatureVerified, .accountMutated uid "pro"],
         .ack "success" "Payment completed and subscription updated")
      else
        (db, [.signatureVerified],
         .err 500 "Failed to update subscription: could not extract user_id from order_id")
    else
      (db, [.signatureVerified], .ack "failed" "Payment failed")

/-! ## Sample concrete inputs (used by witnesses and counterexamples) -/

def sampleAcct : Account := ⟨some "u1", some "a@b.com", "free", 0⟩

def sampleStore : String → Option Account :=
  fun u => if u = "u1" then some sampleAcct else none

def sampleDb : DbState := ⟨sampleStore, false⟩

def sampleFailingDb : DbState := ⟨sampleStore, true⟩

def emptyDb : DbState := ⟨fun _ => none, false⟩

/-- A stand-in for `base64(HMAC-SHA256(key, msg))` usable in witnesses: any
concrete function of the right type. -/
def toyMac (key msg : String) : String := key ++ "#" ++ msg

def toyB64 (s : String) : String := "b64:" ++ s

def toyBasketJson (_q : ℚ) : String := "basket"

def samplePaytrCfg : PaytrConfig := ⟨"mid", "key", "salt", "test"⟩

/-- A well-formed success callback for `u1` whose hash is the correctly
recomputed value under `toyMac`. -/
def samplePaytrForm : PaytrCallbackForm :=
  ⟨some "graphzy-u1-ab12cd34", some "success", some "1000",
   some (toyMac "key" ("graphzy-u1-ab12cd34" ++ "salt" ++ "success" ++ "1000"))⟩

/-! # Theorems -/

/-- **C5.** Quota policy: over the tier domain of the data model
(`subscription_tier ∈ \x7bfree, pro\x7d`), `pro` is always allowed; a tier other
than `pro` is allowed exactly when the chart count is below 5; and a free
request at or above 5 is denied with a 403 whose reason names the 5-chart
limit and the upgrade path. -/
theorem quota_policy_correct (t : String) (c : Nat)
    (hdom : t = "free" ∨ t = "pro") :
    (t = "pro" → chartQuotaCheck t c = .allow) ∧
    (t ≠ "pro" → (chartQuotaCheck t c = .allow ↔ c < 5)) ∧
    (t = "free" → 5 ≤ c →
      chartQuotaCheck t c = .deny 403
        "Free users can only generate 5 charts. Upgrade to Pro for unlimited charts.") := by
  refine ⟨?_, ?_, ?_⟩
  · intro hp
    subst hp
    simp [chartQuotaCheck]
  · intro hnp
    have hf : t = "free" := by
      rcases hdom with h | h
      · exact h
      · exact absurd h hnp
    subst hf
    by_cases hc : c < 5
    · simp [chartQuotaCheck, FREE_CHART_LIMIT, Nat.not_le_of_lt hc, hc]
    · have h5 : FREE_CHART_LIMIT ≤ c := by
        simpa [FREE_CHART_LIMIT] using Nat.le_of_not_lt hc
      simp [chartQuotaCheck, h5, hc]
  · intro hf h5
    subst hf
    have h5' : FREE_CHART_LIMIT ≤ c := by simpa [FREE_CHART_LIMIT] using h5
    simp only [chartQuotaCheck, eq_self_iff_true, true_and]
    rw [if_pos h5']
    decide

/-- Witness for C5 at the boundary `t = "free"`, `c = 5`. -/
theorem quota_policy_correct_witness :
    (("free" : String) = "free" ∨ ("free" : String) = "pro") ∧
    chartQuotaCheck "free" 5 = .deny 403
      "Free users can only generate 5 charts. Upgrade to Pro for unlimited charts." :=
  ⟨Or.inl rfl, (quota_policy_correct "free" 5 (Or.inl rfl)).2.2 rfl (by decide)⟩

/-- **C2.** For every caller whose bearer token resolved to an account with
a stored row, and for either platform value, `verify_iap` grants the
`"pro"` upgrade and returns success exactly when the receipt has length at
least 10 — no verification against Apple or Google is performed and no
other property of the receipt influences the grant — and on grant the
caller's `subscription_tier` is set to `"pro"`. -/
theorem verify_iap_grants_by_receipt_length_only
    (db : DbState) (cu : Account) (req : VerifyIAPRequest) (uid : String) (a : Account)
    (hid : cu.id = some uid) (hacct : db.users uid = some a) :
    ((verify_iap db cu req).2.isSuccess = true ↔ 10 ≤ req.receipt.length) ∧
    (10 ≤ req.receipt.length →
      verify_iap db cu req =
        ({ db with users := fun u =>
            if u = uid then some { a with subscription_tier := "pro" } else db.users u },
         .iapSuccess (some uid) "pro")) ∧
    (req.receipt.length < 10 →
      verify_iap db cu req = (db, .httpError 500 "Failed to verify IAP: Invalid receipt data")) := by
  by_cases hlen : 10 ≤ req.receipt.length
  · have hne : ¬ (req.receipt = "" ∨ req.receipt.length < 10) := by
      rintro (h | h)
      · rw [h] at hlen
        simp at hlen
      · omega
    have hstep : verify_iap db cu req =
        ({ db with users := fun u =>
            if u = uid then some { a with subscription_tier := "pro" } else db.users u },
         .iapSuccess (some uid) "pro") := by
      unfold verify_iap
      rw [if_neg hne, hid]
      simp only [update_user_subscription]
      refine Prod.ext ?_ rfl
      simp only
      congr 1
      funext u
      by_cases hu : u = uid
      · subst hu
        simp [hacct]
      · simp [hu]
    refine ⟨?_, fun _ => hstep, fun h => absurd hlen (by omega)⟩
    rw [hstep]
    simpa [IapResult.isSuccess] using hlen
  · have hlt : req.receipt.length < 10 := by omega
    have hcond : req.receipt = "" ∨ req.receipt.length < 10 := Or.inr hlt
    have hstep : verify_iap db cu req =
        (db, .httpError 500 "Failed to verify IAP: Invalid receipt data") := by
      unfold verify_iap
      rw [if_pos hcond]
    refine ⟨?_, fun h => absurd h hlen, fun _ => hstep⟩
    rw [hstep]
    simp [IapResult.isSuccess]
    omega

/-- Witness for C2: the caller `u1` with a ten-character receipt is
upgraded; with a three-character receipt the request errors. -/
theorem verify_iap_grants_by_receipt_length_only_witness :
    sampleAcct.id = some "u1" ∧ sampleDb.users "u1" = some sampleAcct ∧
    ((verify_iap sampleDb sampleAcct ⟨"abcdefghij", "ios"⟩).2.isSuccess = true ↔
      10 ≤ ("abcdefghij" : String).length) :=
  ⟨rfl, rfl,
    (verify_iap_grants_by_receipt_length_only sampleDb sampleAcct ⟨"abcdefghij", "ios"⟩
      "u1" sampleAcct rfl rfl).1⟩

/-- **C7.** Identity resolution: a verified identity claim carrying a
(nonempty) subject id and email whose subject has no stored account is
auto-provisioned with tier `"free"` and `chart_count 0` and returned; when
the storage upsert fails, a non-persisted in-memory account with the same
defaults is returned instead of failing the request; either way every
success result is a well-formed account with id, email, tier and count
populated. -/
theorem get_current_user_autocreates_or_degrades
    (db : DbState) (tok : TokenOutcome) (uid em : String)
    (hv : verify_token tok = some ⟨some uid, some em⟩)
    (huid : uid ≠ "") (hem : em ≠ "")
    (habs : db.users uid = none) :
    (db.upsertFails = false →
      get_current_user db tok =
        ({ db with users := fun u => if u = uid then some (basicUser uid em) else db.users u },
         .ok (basicUser uid em))) ∧
    (db.upsertFails = true →
      get_current_user db tok = (db, .ok (basicUser uid em))) ∧
    (∀ a, (get_current_user db tok).2 = .ok a →
      a.id = some uid ∧ a.email = some em ∧ a.subscription_tier = "free" ∧ a.chart_count = 0) := by
  have hcond : (get_user_by_id db (some uid)).isNone ∧
      truthy (some uid) ∧ truthy (some em) := by
    refine ⟨?_, ?_, ?_⟩
    · simp [get_user_by_id, habs]
    · simpa [truthy] using huid
    · simpa [truthy] using hem
  constructor
  · intro hflag
    unfold get_current_user
    rw [hv]
    simp only [if_pos hcond]
    simp [create_user, hflag, basicUser]
  constructor
  · intro hflag
    unfold get_current_user
    rw [hv]
    simp only [if_pos hcond]
    simp [create_user, hflag, basicUser]
  · intro a ha
    have : a = basicUser uid em := by
      rcases hflag : db.upsertFails with _ | _
      · have := ha
        unfold get_current_user at this
        rw [hv] at this
        simp only [if_pos hcond] at this
        simp [create_user, hflag] at this
        exact this.symm
      · have := ha
        unfold get_current_user at this
        rw [hv] at this
        simp only [if_pos hcond] at this
        simp [create_user, hflag] at this
        exact this.symm
    subst this
    exact ⟨rfl, rfl, rfl, rfl⟩

/-- Witness for C7: a fresh subject `u2` is created in `sampleDb` with the
free-tier defaults, and degrades to the same in-memory view when the
upsert fails. -/
theorem get_current_user_autocreates_or_degrades_witness :
    verify_token (.localPayload ⟨some "u2", some "b@c.com"⟩) = some ⟨some "u2", some "b@c.com"⟩ ∧
    sampleDb.users "u2" = none ∧
    (get_current_user sampleDb (.localPayload ⟨some "u2", some "b@c.com"⟩)).2 =
      .ok (basicUser "u2" "b@c.com") := by
  refine ⟨rfl, by decide, ?_⟩
  have h := get_current_user_autocreates_or_degrades sampleDb
    (.localPayload ⟨some "u2", some "b@c.com"⟩) "u2" "b@c.com" rfl
    (by decide) (by decide) (by decide)
  rw [h.1 rfl]

/-- **C10 (counterexample to the claim as stated).** A locally decodable
token with neither subject nor email yields the default account view, but
its `id` field is the absent value (Python `None`), not the empty string:
`user_data.get("user_id", "")` returns the stored `None` because the key is
present, so the `""` default is never taken. -/
theorem default_account_id_is_none_not_empty :
    get_current_user emptyDb (.localPayload ⟨none, none⟩) =
      (emptyDb, .ok ⟨none, none, "free", 0⟩) ∧
    ¬ (∃ a, (get_current_user emptyDb (.localPayload ⟨none, none⟩)).2 = .ok a ∧
        a.id = some "") := by
  constructor
  · rfl
  · rintro ⟨a, ha, hid⟩
    have h2 : (get_current_user emptyDb (.localPayload ⟨none, none⟩)).2 =
        .ok (⟨none, none, "free", 0⟩ : Account) := rfl
    rw [h2] at ha
    injection ha with h3
    rw [← h3] at hid
    simp at hid

/-- **C10 (amended).** A token that decodes locally with neither a subject
claim nor an email claim is not rejected: token verification returns an
identity claim with both fields absent, and current-user resolution returns
a default account view whose id and email are the absent value (`None`,
not the empty string), with tier `"free"` and `chart_count 0`, rather than
a 401. -/
theorem empty_claims_token_yields_default_account
    (db : DbState) (p : TokenPayload) (hs : p.sub = none) (he : p.email = none) :
    verify_token (.localPayload p) = some ⟨none, none⟩ ∧
    get_current_user db (.localPayload p) =
      (db, .ok { id := none, email := none, subscription_tier := "free", chart_count := 0 }) ∧
    (get_current_user db (.localPayload p)).2 ≠ .unauthorized := by
  have hv : verify_token (.localPayload p) = some ⟨none, none⟩ := by
    simp [verify_token, hs, he]
  have hg : get_current_user db (.localPayload p) =
      (db, .ok { id := none, email := none, subscription_tier := "free", chart_count := 0 }) := by
    unfold get_current_user
    rw [hv]
    simp [get_user_by_id, truthy, pyDictGet]
  refine ⟨hv, hg, ?_⟩
  rw [hg]
  simp

/-- Witness for the amended C10 on the empty store. -/
theorem empty_claims_token_yields_default_account_witness :
    (⟨none, none⟩ : TokenPayload).sub = none ∧
    (get_current_user emptyDb (.localPayload ⟨none, none⟩)).2 ≠ .unauthorized :=
  ⟨rfl, (empty_claims_token_yields_default_account emptyDb ⟨none, none⟩ rfl rfl).2.2⟩

/-- **C1 (counterexample to the claim as stated).** The Stripe webhook
handler mutates an Account before (indeed, without) any signature
verification: on a `checkout.session.completed` payload naming `u1` it
upgrades `u1` to `"pro"` while its event trace contains no signature
verification, so not every mutation is preceded by one. -/
theorem stripe_webhook_mutates_without_verification :
    ¬ mutationsVerifiedFirst
      (stripe_webhook ⟨true, "whsec"⟩ sampleDb
        ⟨some "checkout.session.completed", some "u1"⟩).2.1 ∧
    (stripe_webhook ⟨true, "whsec"⟩ sampleDb
        ⟨some "checkout.session.completed", some "u1"⟩).1.users "u1" =
      some { sampleAcct with subscription_tier := "pro" } := by
  constructor
  · decide
  · rfl

/-- **C1 (amended).** The no-mutation-before-verification invariant holds
for the PayTR local-card callback (every account mutation in its trace is
preceded by a successful hash verification) and for the PayPal webhook
(which never mutates any account); the Stripe webhook, by contrast,
performs no signature verification at all — its trace never contains a
verification event — yet can mutate accounts. -/
theorem confirmation_mutation_verification_amended :
    (∀ (hmacSha256B64 : String → String → String) (cfg : PaytrConfig)
        (db : DbState) (form : PaytrCallbackForm),
      mutationsVerifiedFirst (paytr_callback hmacSha256B64 cfg db form).2.1) ∧
    (∀ (db : DbState) (req : PaypalWebhookRequest),
      (paypal_webhook db req).1 = db ∧ (paypal_webhook db req).2.1 = []) ∧
    (∀ (env : StripeEnv) (db : DbState) (req : StripeWebhookRequest),
      Event.signatureVerified ∉ (stripe_webhook env db req).2.1) := by
  refine ⟨?_, ?_, ?_⟩
  · intro hm cfg db form
    unfold paytr_callback
    split
    · rfl
    · split
      · rfl
      · dsimp only
        split
        · rfl
        · split
          · split
            · rfl
            · rfl
          · rfl
  · intro db req
    unfold paypal_webhook
    split <;> exact ⟨rfl, rfl⟩
  · intro env db req
    unfold stripe_webhook
    split
    · simp
    · split
      · simp
      · split
        · split
          · dsimp only
            simp
          · simp
        · simp

/-- `splitDash` splits off a dash-free prefix at the first dash. -/
theorem splitDash_append_dash (xs ys : List Char) (h : '-' ∉ xs) :
    splitDash (xs ++ '-' :: ys) = xs :: splitDash ys := by
  induction xs with
  | nil => simp [splitDash]
  | cons c xs ih =>
    have hc : c ≠ '-' := by
      intro he
      exact h (he ▸ List.mem_cons_self c xs)
    have h' : '-' ∉ xs := fun hm => h (List.mem_cons_of_mem _ hm)
    simp only [List.cons_append, splitDash, List.append_eq]
    rw [ih h']
    simp [hc]

/-- The character list of the built merchant order id. -/
theorem paytrOrderId_data (s r : String) :
    (paytrOrderId s r).data =
      ['g', 'r', 'a', 'p', 'h', 'z', 'y'] ++ '-' :: (s.data ++ '-' :: r.data) := by
  have h1 : ("graphzy-" : String).data = ['g', 'r', 'a', 'p', 'h', 'z', 'y', '-'] := rfl
  have h2 : ("-" : String).data = ['-'] := rfl
  simp [paytrOrderId, String.data_append, h1, h2]

/-- **C3 (counterexample to the claim as stated).** The round-trip fails
for a subject id containing a dash: for `s = "u-1"` the callback-side
parse of the built order id recovers `"u"`, not `"u-1"`. -/
theorem order_id_roundtrip_counterexample :
    extractUserId (paytrOrderId "u-1" "ab12cd34") = some "u" ∧
    some "u" ≠ some "u-1" := by
  constructor
  · decide
  · decide

/-- **C3 (amended).** Round-trip of the subject-id encoding holds for
every subject id that contains no dash (and any suffix): session creation
builds `graphzy-<s>-<r>` and the callback-side split on `-` recovers
exactly `s` as the second segment. -/
theorem order_id_roundtrip (s r : String) (hs : '-' ∉ s.data) :
    extractUserId (paytrOrderId s r) = some s := by
  have hdata := paytrOrderId_data s r
  have hmem : '-' ∈ (paytrOrderId s r).data := by
    rw [hdata]
    simp
  have hsplit : splitDash (paytrOrderId s r).data =
      ['g', 'r', 'a', 'p', 'h', 'z', 'y'] :: s.data :: splitDash r.data := by
    rw [hdata, splitDash_append_dash _ _ (by decide), splitDash_append_dash _ _ hs]
  unfold extractUserId pySplitDash
  rw [if_pos hmem, hsplit]
  simp only [List.map_cons, List.getD_cons_succ, List.getD_cons_zero]

/-- Witness for the amended C3 at `s = "u1"`, `r = "ab12cd34"`. -/
theorem order_id_roundtrip_witness :
    '-' ∉ ("u1" : String).data ∧ extractUserId (paytrOrderId "u1" "ab12cd34") = some "u1" :=
  ⟨by decide, order_id_roundtrip "u1" "ab12cd34" (by decide)⟩

/-- **C4.** Local-card callback, fail closed: with the secrets configured
and all four form fields present, if the supplied hash differs from
`base64(HMAC-SHA256(merchant_key, merchant_oid ++ merchant_salt ++ status ++ total_amount))`
the handler returns the 400 "Invalid hash" error and the store is
untouched (and no event fires); if the supplied hash equals the recomputed
value the request is never rejected with that authenticity error. -/
theorem paytr_callback_hash_fail_closed
    (hmacSha256B64 : String → String → String) (cfg : PaytrConfig) (db : DbState)
    (form : PaytrCallbackForm) (oid st amt h : String)
    (hkey : cfg.merchant_key ≠ "") (hsalt : cfg.merchant_salt ≠ "")
    (hoid : form.merchant_oid = some oid) (hst : form.status = some st)
    (hamt : form.total_amount = some amt) (hh : form.hash = some h)
    (hoid' : oid ≠ "") (hst' : st ≠ "") (hamt' : amt ≠ "") (hh' : h ≠ "") :
    (h ≠ hmacSha256B64 cfg.merchant_key (oid ++ cfg.merchant_salt ++ st ++ amt) →
      paytr_callback hmacSha256B64 cfg db form =
        (db, [], .err 400 "Invalid hash - possible security issue")) ∧
    (h = hmacSha256B64 cfg.merchant_key (oid ++ cfg.merchant_salt ++ st ++ amt) →
      (paytr_callback hmacSha256B64 cfg db form).2.2 ≠
        .err 400 "Invalid hash - possible security issue") := by
  have hcfg : ¬ (cfg.merchant_key = "" ∨ cfg.merchant_salt = "") := by
    rintro (hc | hc)
    exacts [hkey hc, hsalt hc]
  have hfields : ¬ (¬ truthy form.merchant_oid = true ∨ ¬ truthy form.status = true ∨
      ¬ truthy form.total_amount = true ∨ ¬ truthy form.hash = true) := by
    simp [hoid, hst, hamt, hh, truthy, hoid', hst', hamt', hh']
  constructor
  · intro hne
    unfold paytr_callback
    rw [if_neg hcfg, if_neg hfields]
    simp only [hoid, hst, hamt, hh, Option.getD_some]
    rw [if_pos (fun he => hne he.symm)]
  · intro heq
    unfold paytr_callback
    rw [if_neg hcfg, if_neg hfields]
    simp only [hoid, hst, hamt, hh, Option.getD_some]
    rw [if_neg (by simp [heq])]
    split
    · split
      · simp [update_user_subscription]
      · simp
    · simp

/-- Witness for C4: a tampered hash on a concrete callback is rejected
with the store untouched. -/
theorem paytr_callback_hash_fail_closed_witness :
    ("bad" : String) ≠ toyMac "key" ("graphzy-u1-ab12cd34" ++ "salt" ++ "success" ++ "1000") ∧
    paytr_callback toyMac ⟨"mid", "key", "salt", "test"⟩ sampleDb
      ⟨some "graphzy-u1-ab12cd34", some "success", some "1000", some "bad"⟩ =
      (sampleDb, [], .err 400 "Invalid hash - possible security issue") :=
  ⟨by decide,
    (paytr_callback_hash_fail_closed toyMac ⟨"mid", "key", "salt", "test"⟩ sampleDb
      ⟨some "graphzy-u1-ab12cd34", some "success", some "1000", some "bad"⟩
      "graphzy-u1-ab12cd34" "success" "1000" "bad"
      (by decide) (by decide) rfl rfl rfl rfl
      (by decide) (by decide) (by decide) (by decide)).1 (by decide)⟩

/-- Appending `"00"` is appending `"0"` twice. -/
theorem append_zero_zero (x y : String) : x ++ "00" ++ y = x ++ "0" ++ "0" ++ y := by
  have h : ("0" : String) ++ "0" = "00" := by decide
  rw [String.append_assoc x "0" "0", h]

/-- **C6.** The PayTR authentication token submitted with the session form
equals `base64(HMAC-SHA256(merchant_key, merchant_id ++ merchant_salt ++
order_id ++ email ++ amount_minor ++ basket_b64 ++ "0" ++ "0" ++ test_flag))`,
where `test_flag` is `"1"` exactly in test mode, `amount_minor` is the
truncated kuruş amount, and `basket_b64` is the base64-encoded basket
description. -/
theorem paytr_token_formula (hmacSha256B64 : String → String → String)
    (b64 : String → String) (basketJson : ℚ → String) (cfg : PaytrConfig)
    (current_user : Account) (req : CreatePayTRRequest) (uuidSuffix : String) :
    (buildPaytrPaymentData hmacSha256B64 b64 basketJson cfg current_user req uuidSuffix).paytr_token =
      hmacSha256B64 cfg.merchant_key
        (cfg.merchant_id ++ cfg.merchant_salt ++
          (buildPaytrPaymentData hmacSha256B64 b64 basketJson cfg current_user req uuidSuffix).merchant_oid ++
          pyStr current_user.email ++ toString (pyInt (req.amount * 100)) ++
          b64 (basketJson req.amount) ++ "0" ++ "0" ++
          (if cfg.paytr_mode = "test" then "1" else "0")) ∧
    (buildPaytrPaymentData hmacSha256B64 b64 basketJson cfg current_user req uuidSuffix).merchant_oid =
      paytrOrderId (pyStr current_user.id) uuidSuffix ∧
    (buildPaytrPaymentData hmacSha256B64 b64 basketJson cfg current_user req uuidSuffix).payment_amount =
      pyInt (req.amount * 100) ∧
    (buildPaytrPaymentData hmacSha256B64 b64 basketJson cfg current_user req uuidSuffix).user_basket =
      b64 (basketJson req.amount) ∧
    (buildPaytrPaymentData hmacSha256B64 b64 basketJson cfg current_user req uuidSuffix).test_mode =
      (if cfg.paytr_mode = "test" then "1" else "0") := by
  refine ⟨?_, rfl, rfl, rfl, rfl⟩
  unfold buildPaytrPaymentData
  dsimp only
  congr 1
  rw [append_zero_zero]

/-- **C8.** PayPal frame condition: order creation never mutates the
store; capture leaves the store unchanged and errors whenever the capture
status is not `COMPLETED`, and on a `COMPLETED` capture it sets the
caller's `subscription_tier` to `"pro"` and succeeds. -/
theorem paypal_frame_condition :
    (∀ (env : PaypalEnv) (db : DbState) (auth : PaypalAuthResp) (order : PaypalOrderResp),
      (create_paypal_session env db auth order).1 = db) ∧
    (∀ (env : PaypalEnv) (db : DbState) (cu : Account) (oid : String)
        (auth : PaypalAuthResp) (cap : PaypalCaptureResp),
      cap.status ≠ some "COMPLETED" →
        (capture_paypal_payment env db cu oid auth cap).1 = db ∧
        ∃ c d, (capture_paypal_payment env db cu oid auth cap).2 = .err c d) ∧
    (∀ (env : PaypalEnv) (db : DbState) (cu : Account) (oid uid : String)
        (auth : PaypalAuthResp) (cap : PaypalCaptureResp) (a : Account),
      ¬ (env.client_id = "" ∨ env.secret = "") → auth.status_code = 200 →
      auth.access_token.isSome → cap.status_code = 201 → cap.status = some "COMPLETED" →
      cu.id = some uid → db.users uid = some a →
        (capture_paypal_payment env db cu oid auth cap).1.users uid =
          some { a with subscription_tier := "pro" } ∧
        (capture_paypal_payment env db cu oid auth cap).2 = .ok oid) := by
  refine ⟨?_, ?_, ?_⟩
  · intro env db auth order
    unfold create_paypal_session
    repeat' first | rfl | split | dsimp only
  · intro env db cu oid auth cap hne
    unfold capture_paypal_payment
    repeat' first
      | exact ⟨rfl, 500, "PayPal is not configured", rfl⟩
      | exact ⟨rfl, 500, "Failed to get PayPal access token", rfl⟩
      | exact ⟨rfl, 500, "Failed to capture payment: access_token", rfl⟩
      | exact ⟨rfl, 400, "Failed to capture payment", rfl⟩
      | exact ⟨rfl, 400, "Payment not completed", rfl⟩
      | exact absurd (by assumption) hne
      | split
  · intro env db cu oid uid auth cap a hcfg h200 htok h201 hcomp hid hacct
    obtain ⟨t, ht⟩ := Option.isSome_iff_exists.mp htok
    unfold capture_paypal_payment
    rw [if_neg hcfg, if_neg (by simp [h200]), ht]
    rw [if_neg (by simp [h201]), if_pos hcomp]
    constructor
    · simp only [update_user_subscription, hid, pyStr]
      simp [hacct]
    · rfl

/-- The one success path of the PayTR callback, in closed form: with the
secrets configured, all fields present, a matching hash, a `"success"`
status and a recoverable nonempty subject id, the handler applies exactly
the tier update and acknowledges. -/
theorem paytr_callback_success_form (hmacSha256B64 : String → String → String)
    (cfg : PaytrConfig) (db : DbState) (form : PaytrCallbackForm)
    (oid amt h uid : String)
    (hkey : cfg.merchant_key ≠ "") (hsalt : cfg.merchant_salt ≠ "")
    (hoid : form.merchant_oid = some oid) (hst : form.status = some "success")
    (hamt : form.total_amount = some amt) (hh : form.hash = some h)
    (hoid' : oid ≠ "") (hamt' : amt ≠ "") (hh' : h ≠ "")
    (heq : h = hmacSha256B64 cfg.merchant_key (oid ++ cfg.merchant_salt ++ "success" ++ amt))
    (hex : extractUserId oid = some uid) (huid : uid ≠ "") :
    paytr_callback hmacSha256B64 cfg db form =
      ((update_user_subscription db uid "pro").1,
       [.signatureVerified, .accountMutated uid "pro"],
       .ack "success" "Payment completed and subscription updated") := by
  have hcfg : ¬ (cfg.merchant_key = "" ∨ cfg.merchant_salt = "") := by
    rintro (hc | hc)
    exacts [hkey hc, hsalt hc]
  have hfields : ¬ (¬ truthy form.merchant_oid = true ∨ ¬ truthy form.status = true ∨
      ¬ truthy form.total_amount = true ∨ ¬ truthy form.hash = true) := by
    simp [hoid, hst, hamt, hh, truthy, hoid', hamt', hh']
  unfold paytr_callback
  rw [if_neg hcfg, if_neg hfields]
  simp only [hoid, hst, hamt, hh, Option.getD_some]
  rw [if_neg (by simp [heq]), if_pos trivial, hex]
  simp only [Option.getD_some]
  rw [if_pos (by simp [truthy, huid])]

/-- **C9.** Subscription Reconciler idempotence: applying the tier update
twice with the same arguments equals applying it once (same store, same
returned flag), and a repeat of an identical successful local-card
callback is again acknowledged with success and leaves the account at
tier `"pro"`. -/
theorem reconciler_idempotent :
    (∀ (db : DbState) (uid tier : String),
      update_user_subscription (update_user_subscription db uid tier).1 uid tier =
        update_user_subscription db uid tier) ∧
    (∀ (hmacSha256B64 : String → String → String) (cfg : PaytrConfig) (db : DbState)
        (form : PaytrCallbackForm) (oid amt h uid : String) (a : Account),
      cfg.merchant_key ≠ "" → cfg.merchant_salt ≠ "" →
      form.merchant_oid = some oid → form.status = some "success" →
      form.total_amount = some amt → form.hash = some h →
      oid ≠ "" → amt ≠ "" → h ≠ "" →
      h = hmacSha256B64 cfg.merchant_key (oid ++ cfg.merchant_salt ++ "success" ++ amt) →
      extractUserId oid = some uid → uid ≠ "" → db.users uid = some a →
        (paytr_callback hmacSha256B64 cfg db form).1.users uid =
          some { a with subscription_tier := "pro" } ∧
        paytr_callback hmacSha256B64 cfg (paytr_callback hmacSha256B64 cfg db form).1 form =
          ((paytr_callback hmacSha256B64 cfg db form).1,
           [.signatureVerified, .accountMutated uid "pro"],
           .ack "success" "Payment completed and subscription updated")) := by
  have hupd : ∀ (db : DbState) (uid tier : String),
      update_user_subscription (update_user_subscription db uid tier).1 uid tier =
        update_user_subscription db uid tier := by
    intro db uid tier
    unfold update_user_subscription
    simp only [Prod.mk.injEq]
    constructor
    · congr 1
      funext u
      by_cases hu : u = uid
      · subst hu
        simp only [if_pos rfl]
        cases db.users u <;> rfl
      · simp [hu]
    · simp [Option.isSome_map]
  refine ⟨hupd, ?_⟩
  intro hm cfg db form oid amt h uid a hkey hsalt hoid hst hamt hh hoid' hamt' hh' heq hex huid hacct
  have h1 := paytr_callback_success_form hm cfg db form oid amt h uid
    hkey hsalt hoid hst hamt hh hoid' hamt' hh' heq hex huid
  have h2 := paytr_callback_success_form hm cfg (paytr_callback hm cfg db form).1 form oid amt h uid
    hkey hsalt hoid hst hamt hh hoid' hamt' hh' heq hex huid
  constructor
  · rw [h1]
    simp only [update_user_subscription]
    simp [hacct]
  · rw [h2, h1]
    have := congrArg Prod.fst (hupd db uid "pro")
    simp only at this
    rw [this]

/-- Witness for C9: the concrete success callback upgrades `u1`, and its
identical repeat is again acknowledged with success on an unchanged
store. -/
theorem reconciler_idempotent_witness :
    sampleDb.users "u1" = some sampleAcct ∧
    (paytr_callback toyMac samplePaytrCfg sampleDb samplePaytrForm).1.users "u1" =
      some { sampleAcct with subscription_tier := "pro" } ∧
    paytr_callback toyMac samplePaytrCfg
        (paytr_callback toyMac samplePaytrCfg sampleDb samplePaytrForm).1 samplePaytrForm =
      ((paytr_callback toyMac samplePaytrCfg sampleDb samplePaytrForm).1,
       [.signatureVerified, .accountMutated "u1" "pro"],
       .ack "success" "Payment completed and subscription updated") := by
  have h := reconciler_idempotent.2 toyMac samplePaytrCfg sampleDb samplePaytrForm
    "graphzy-u1-ab12cd34" "1000"
    (toyMac "key" ("graphzy-u1-ab12cd34" ++ "salt" ++ "success" ++ "1000")) "u1" sampleAcct
    (by decide) (by decide) rfl rfl rfl rfl (by decide) (by decide) (by decide) rfl
    (by decide) (by decide) rfl
  exact ⟨rfl, h.1, h.2⟩

/-- Witness for C8: a `PENDING` capture leaves the store unchanged, a
`COMPLETED` capture upgrades `u1`. -/
theorem paypal_frame_condition_witness :
    (some "PENDING" ≠ some "COMPLETED") ∧
    (capture_paypal_payment ⟨"cid", "sec", "sandbox"⟩ sampleDb sampleAcct "o1"
        ⟨200, some "tok"⟩ ⟨201, some "PENDING"⟩).1 = sampleDb ∧
    (capture_paypal_payment ⟨"cid", "sec", "sandbox"⟩ sampleDb sampleAcct "o1"
        ⟨200, some "tok"⟩ ⟨201, some "COMPLETED"⟩).1.users "u1" =
      some { sampleAcct with subscription_tier := "pro" } := by
  refine ⟨by decide, ?_, ?_⟩
  · exact (paypal_frame_condition.2.1 ⟨"cid", "sec", "sandbox"⟩ sampleDb sampleAcct "o1"
      ⟨200, some "tok"⟩ ⟨201, some "PENDING"⟩ (by decide)).1
  · exact (paypal_frame_condition.2.2 ⟨"cid", "sec", "sandbox"⟩ sampleDb sampleAcct "o1" "u1"
      ⟨200, some "tok"⟩ ⟨201, some "COMPLETED"⟩ sampleAcct
      (by decide) rfl rfl rfl rfl rfl (by decide)).1

end Chartizy
